import Mathlib

/-!
Shallow embedding of the `CaptchaTask` module
(`src/devpulse_client/core/captcha/captcha_task.py`) of the
devpulse-client repository, together with theorems settling the
specification claims about it.

Modelling conventions:
* `datetime` values are integers counting microseconds (the resolution of
  Python `datetime`); UNIX timestamps handed to `tick` (Python floats) are
  rationals; exact rational arithmetic stands in for float arithmetic.
* Python `random.randint(1, 20)` outcomes are indexed by `Fin 20`
  (outcome `i` is the integer `i + 1`), `random.choice(['+', '-'])`
  outcomes by `Fin 2`; both sources are uniform, so uniformity of the
  generated challenge is expressed by counting preimages.
* The external zenity dialog collaborator is modelled by its observable
  outcome (`DialogResult`); dialogs actually shown are collected in a list.
* The `EventStore._push` boundary call is modelled by collecting the pushed
  records; a record is an association list of field name to value, exactly
  the dict built in `_log_captcha_event`.
* Asynchronous machinery (`_loop_attr`, `_task`, `_captcha_thread`) is
  modelled by the observable status of each handle, with the thread-spawn
  path taken as one atomic step (the spawned thread has installed the loop).
-/

namespace DevPulse

/-- The two operators `random.choice(['+', '-'])` can produce. -/
inductive Op
  | add
  | sub
deriving DecidableEq, Repr

/-- The textual form of the operator as it is interpolated into the
expression f-string. -/
def opString : Op → String
  | .add => "+"
  | .sub => "-"

/-- Exact integer evaluation of `a op b`, the value Python `eval` returns on
the expression string `f"{a} {op} {b}"`. -/
def evalOp (op : Op) (a b : Nat) : Int :=
  match op with
  | .add => (a : Int) + b
  | .sub => (a : Int) - b

/-- The expression string `f"{a} {op} {b}"` built in
`_captcha_challenge_coroutine`. -/
def exprString (a : Nat) (op : Op) (b : Nat) : String :=
  toString a ++ " " ++ opString op ++ " " ++ toString b

/-- Split a character list at every space, mirroring how a
`"<int> <op> <int>"` expression string decomposes into tokens. -/
def splitOnSpace : List Char → List (List Char)
  | [] => [[]]
  | c :: cs =>
    match splitOnSpace cs with
    | [] => [[c]]
    | w :: ws => if c = ' ' then [] :: w :: ws else (c :: w) :: ws

/-- The numeric value of an ASCII decimal digit. -/
def charDigit? (c : Char) : Option Nat :=
  if '0' ≤ c ∧ c ≤ '9' then some (c.toNat - '0'.toNat) else none

/-- Accumulate ASCII decimal digits into a natural number. -/
def digitsNat? : List Char → Nat → Option Nat
  | [], acc => some acc
  | c :: cs, acc =>
    match charDigit? c with
    | some d => digitsNat? cs (acc * 10 + d)
    | none => none

/-- Parse a nonempty all-digit character list as a natural number. -/
def charsToNat? (cs : List Char) : Option Nat :=
  match cs with
  | [] => none
  | _ => digitsNat? cs 0

/-- Embedding of Python `eval` restricted to the strings this module feeds
it: `"<nat> + <nat>"` or `"<nat> - <nat>"` evaluate to the exact integer
result; anything else is undefined. -/
def pyEvalChars (cs : List Char) : Option Int :=
  match splitOnSpace cs with
  | [x, o, y] =>
    match charsToNat? x, charsToNat? y with
    | some m, some n =>
      match o with
      | ['+'] => some ((m : Int) + n)
      | ['-'] => some ((m : Int) - n)
      | _ => none
    | _, _ => none
  | _ => none

/-- `pyEvalChars` on the characters of a string. -/
def pyEval (s : String) : Option Int :=
  pyEvalChars s.data

/-- Outcome `i` of `random.randint(1, 20)`: the integer `i + 1 ∈ [1, 20]`.
`randint` is uniform, so the 20 outcomes are equally likely. -/
def randint1to20 (i : Fin 20) : Nat :=
  i.val + 1

/-- Outcome `i` of `random.choice(['+', '-'])`: the element at index `i`.
`choice` is uniform, so the 2 outcomes are equally likely. -/
def pyChoiceOp (i : Fin 2) : Op :=
  if i.val = 0 then Op.add else Op.sub

/-- The data a single challenge generation step produces (the locals
`a`, `b`, `op`, `expr`, `correct_answer` of the coroutine). -/
structure Challenge where
  a : Nat
  b : Nat
  op : Op
  expr : String
  correct_answer : Int
deriving DecidableEq, Repr

/-- Lines 102-107 of the coroutine: draw two operands and an operator,
render the expression string, and evaluate it.  `correct_answer` is
written with `evalOp`; the theorem for the generator claim shows this
agrees with `pyEval` on the rendered string. -/
def generateChallenge (ia ib : Fin 20) (iop : Fin 2) : Challenge :=
  let a := randint1to20 ia
  let b := randint1to20 ib
  let op := pyChoiceOp iop
  { a := a, b := b, op := op
    expr := exprString a op b
    correct_answer := evalOp op a b }

/-- The seeded generator as one function on the uniform sample space. -/
def generateChallengeFun (x : Fin 20 × Fin 20 × Fin 2) : Challenge :=
  generateChallenge x.1 x.2.1 x.2.2

/-! ### The dialog collaborator and user-input parsing -/

/-- Observable outcome of the `zenity --entry` invocation in
`_show_math_dialog_async`: the subprocess could not be started at all
(the outer `except` path), the user cancelled (non-zero exit status), or
the user submitted the decoded standard-output text. -/
inductive DialogResult
  | spawnFailed
  | cancelled
  | submitted (raw : String)

/-- A dialog actually presented to the user, one constructor per zenity
invocation in the source. -/
inductive DialogShown
  | mathPrompt (text : String)
  | invalidInput
  | successInfo (timeout : Int)
  | errorWarning
deriving DecidableEq, Repr

/-- The prompt text `f"Solve: {expression} = ?"`. -/
def promptText (expression : String) : String :=
  "Solve: " ++ expression ++ " = ?"

/-- Python `str.strip()`: drop whitespace from both ends. -/
def stripChars (cs : List Char) : List Char :=
  ((cs.dropWhile Char.isWhitespace).reverse.dropWhile Char.isWhitespace).reverse

/-- Python `str.strip()` on a string. -/
def pyStrip (s : String) : String :=
  ⟨stripChars s.data⟩

/-- Embedding of Python `int(s)` on an already-stripped string: an optional
sign followed by ASCII decimal digits; underscore grouping and non-ASCII
digits are not modelled. -/
def pyIntParse? (s : String) : Option Int :=
  match s.data with
  | '-' :: rest => (charsToNat? rest).map (fun n => -(n : Int))
  | '+' :: rest => (charsToNat? rest).map (fun n => (n : Int))
  | cs => (charsToNat? cs).map (fun n => (n : Int))

/-- `int(stdout.decode().strip())` as used on the submitted text. -/
def parseUserAnswer? (raw : String) : Option Int :=
  pyIntParse? (pyStrip raw)

/-- `_show_math_dialog_async`: shows the math prompt (when the subprocess
starts), returns the parsed integer answer, or `none` on cancellation; on
unparseable input it additionally shows the invalid-input dialog and
returns `none`. -/
def showMathDialogAsync (expression : String) (res : DialogResult) :
    Option Int × List DialogShown :=
  match res with
  | .spawnFailed => (none, [])
  | .cancelled => (none, [.mathPrompt (promptText expression)])
  | .submitted raw =>
    match parseUserAnswer? raw with
    | some n => (some n, [.mathPrompt (promptText expression)])
    | none => (none, [.mathPrompt (promptText expression), .invalidInput])

/-! ### The event record pushed to the EventStore -/

/-- A Python value stored in the event dict: a string, an int, a bool, or a
`datetime` (microseconds). -/
inductive PyVal
  | str (v : String)
  | int (v : Int)
  | bool (v : Bool)
  | dt (v : Int)
deriving DecidableEq, Repr

/-- The dict built by `_log_captcha_event` and handed to
`EventStore._push`, with insertion order preserved.  `username` is the
value of `tracker_settings.user` read at emit time. -/
def logCaptchaEvent (username expression : String)
    (user_answer correct_answer : Int) (is_correct : Bool)
    (creation_time answer_time response_time_ms : Int) :
    List (String × PyVal) :=
  [("username", .str username),
   ("timestamp", .dt creation_time),
   ("event", .str "captcha_challenge"),
   ("expression", .str expression),
   ("user_answer", .int user_answer),
   ("correct_answer", .int correct_answer),
   ("is_correct", .bool is_correct),
   ("creation_time", .dt creation_time),
   ("answer_time", .dt answer_time),
   ("response_time_ms", .int response_time_ms)]

/-! ### Timing -/

/-- `timedelta.total_seconds()` for a difference of `d` microseconds, as an
exact rational. -/
def timedeltaTotalSeconds (d : Int) : ℚ :=
  (d : ℚ) / 1000000

/-- Python `int()` applied to a real number: truncation toward zero. -/
def pyInt (q : ℚ) : Int :=
  q.num.tdiv (q.den : Int)

/-- `int((answer_time - creation_time).total_seconds() * 1000)`. -/
def responseTimeMs (creation_time answer_time : Int) : Int :=
  pyInt (timedeltaTotalSeconds (answer_time - creation_time) * 1000)

/-! ### One challenge run -/

/-- Everything one run of `_captcha_challenge_coroutine` does at the two
external boundaries: the records pushed to the EventStore and the dialogs
shown, in order. -/
structure RunOutcome where
  pushes : List (List (String × PyVal))
  dialogs : List DialogShown
deriving DecidableEq, Repr

/-- `_captcha_challenge_coroutine`, parameterised by the environment: the
configured user name, `self.info_timeout`, the random draws, the two
`datetime.now()` readings (`creation_time` before the dialog,
`answer_time` after it), and the dialog outcome. -/
def captchaChallengeCoroutine (username : String) (info_timeout : Int)
    (ia ib : Fin 20) (iop : Fin 2) (creation_time answer_time : Int)
    (res : DialogResult) : RunOutcome :=
  let c := generateChallenge ia ib iop
  match showMathDialogAsync c.expr res with
  | (none, shown) => ⟨[], shown⟩
  | (some user_answer, shown) =>
    let rt := responseTimeMs creation_time answer_time
    let is_correct := user_answer == c.correct_answer
    let record := logCaptchaEvent username c.expr user_answer
      c.correct_answer is_correct creation_time answer_time rt
    ⟨[record],
      shown ++ [if is_correct then DialogShown.successInfo info_timeout
                else DialogShown.errorWarning]⟩

/-! ### The task object, scheduler, and serialization -/

/-- The attributes of a `CaptchaTask` instance.  `last_challenge` is
`_last_challenge` (a UNIX timestamp or `None`), `loop_attr` the
`_loop_attr` slot behind the `_loop` property, `task` the `_task` handle
(`some done` records whether the handle reports done), `captcha_thread`
the `_captcha_thread` handle (`some alive` records whether it is alive). -/
structure CaptchaTaskState where
  interval : Int
  info_timeout : Int
  last_challenge : Option ℚ
  running : Bool
  loop_attr : Option Unit
  task : Option Bool
  captcha_thread : Option Bool
deriving DecidableEq, Repr

/-- `__init__(interval=10, info_timeout=3)`. -/
def initCaptchaTask (interval info_timeout : Int) : CaptchaTaskState :=
  { interval := interval, info_timeout := info_timeout
    last_challenge := none, running := false
    loop_attr := none, task := none, captcha_thread := none }

/-- `_run_captcha_challenge_async`: if no loop exists, spawn the worker
thread (taken as one atomic step in which the spawned thread has installed
the loop) and start an instance; otherwise start an instance by scheduling
a coroutine only when `_task` is absent or done.  Returns the new state and
whether a new challenge instance was started. -/
def runCaptchaChallengeAsync (s : CaptchaTaskState) :
    CaptchaTaskState × Bool :=
  match s.loop_attr with
  | none =>
    ({ s with captcha_thread := some true, loop_attr := some () }, true)
  | some _ =>
    match s.task with
    | none => ({ s with task := some false }, true)
    | some done =>
      if done then ({ s with task := some false }, true) else (s, false)

/-- The outcome of one `tick` call: the new state, whether the due-check
fired (and the runner was invoked), and whether a new challenge instance
was actually started. -/
structure TickResult where
  state : CaptchaTaskState
  triggered : Bool
  started : Bool
deriving DecidableEq, Repr

/-- The triggering branch of `tick`: set `_last_challenge = now` and invoke
`_run_captcha_challenge_async`. -/
def tickFire (s : CaptchaTaskState) (now : ℚ) : TickResult :=
  let r := runCaptchaChallengeAsync { s with last_challenge := some now }
  ⟨r.1, true, r.2⟩

/-- `tick(now)`: if `_last_challenge is None or now - _last_challenge >=
self.interval`, record `now` and run a challenge asynchronously. -/
def tick (s : CaptchaTaskState) (now : ℚ) : TickResult :=
  match s.last_challenge with
  | none => tickFire s now
  | some last =>
    if now - last ≥ (s.interval : ℚ) then tickFire s now
    else ⟨s, false, false⟩

/-- `start()`: set `_running = True`. -/
def startTask (s : CaptchaTaskState) : CaptchaTaskState :=
  { s with running := true }

/-- `stop()`: set `_running = False` and attempt to cancel a pending,
not-done `_task`; `cancelOk` models whether `Future.cancel` succeeded. -/
def stopTask (cancelOk : Bool) (s : CaptchaTaskState) : CaptchaTaskState :=
  let s1 := { s with running := false }
  match s1.task with
  | some false => if cancelOk then { s1 with task := some true } else s1
  | _ => s1

/-- A value of `self.__dict__`, one constructor per attribute type. -/
inductive ObjVal
  | int (n : Int)
  | optFloat (v : Option ℚ)
  | bool (b : Bool)
  | optLoop (v : Option Unit)
  | optTask (v : Option Bool)
  | optThread (v : Option Bool)
deriving DecidableEq, Repr

/-- `self.__dict__` in attribute-insertion order (`__init__` assigns
`interval`, `info_timeout`, `_last_challenge`, `_running`, then the
`_loop` property setter writes `_loop_attr`, then `_task` and
`_captcha_thread`). -/
def objDict (s : CaptchaTaskState) : List (String × ObjVal) :=
  [("interval", .int s.interval),
   ("info_timeout", .int s.info_timeout),
   ("_last_challenge", .optFloat s.last_challenge),
   ("_running", .bool s.running),
   ("_loop_attr", .optLoop s.loop_attr),
   ("_task", .optTask s.task),
   ("_captcha_thread", .optThread s.captcha_thread)]

/-- `dict.pop(k, None)` on a copy: remove the entry with key `k`. -/
def dictPop (d : List (String × ObjVal)) (k : String) :
    List (String × ObjVal) :=
  d.filter (fun kv => kv.1 != k)

/-- `__getstate__`: copy `__dict__` and pop `_loop_attr`, `_task`, and
`_captcha_thread`. -/
def getstate (s : CaptchaTaskState) : List (String × ObjVal) :=
  dictPop (dictPop (dictPop (objDict s) "_loop_attr") "_task")
    "_captcha_thread"

/-! ### Scheduler lemmas -/

lemma runAsync_last (s : CaptchaTaskState) :
    (runCaptchaChallengeAsync s).1.last_challenge = s.last_challenge := by
  rcases s with ⟨i, it, lc, r, la, tk, th⟩
  rcases la with _ | u
  · rfl
  · rcases tk with _ | done
    · rfl
    · rcases done with _ | _ <;> rfl

lemma runAsync_running (s : CaptchaTaskState) (b : Bool) :
    runCaptchaChallengeAsync { s with running := b } =
      ({ (runCaptchaChallengeAsync s).1 with running := b },
        (runCaptchaChallengeAsync s).2) := by
  rcases s with ⟨i, it, lc, r, la, tk, th⟩
  rcases la with _ | u
  · rfl
  · rcases tk with _ | done
    · rfl
    · rcases done with _ | _ <;> rfl

lemma runAsync_thread (s : CaptchaTaskState) (th : Option Bool) :
    (runCaptchaChallengeAsync { s with captcha_thread := th }).2 =
      (runCaptchaChallengeAsync s).2 := by
  rcases s with ⟨i, it, lc, r, la, tk, th₀⟩
  rcases la with _ | u
  · rfl
  · rcases tk with _ | done
    · rfl
    · rcases done with _ | _ <;> rfl

lemma tick_eq_of_none (s : CaptchaTaskState) (now : ℚ)
    (h : s.last_challenge = none) : tick s now = tickFire s now := by
  unfold tick
  rw [h]

lemma tick_eq_of_due (s : CaptchaTaskState) (now last : ℚ)
    (h : s.last_challenge = some last) (hd : now - last ≥ (s.interval : ℚ)) :
    tick s now = tickFire s now := by
  unfold tick
  rw [h]
  exact if_pos hd

lemma tick_eq_of_not_due (s : CaptchaTaskState) (now last : ℚ)
    (h : s.last_challenge = some last)
    (hd : ¬ now - last ≥ (s.interval : ℚ)) :
    tick s now = ⟨s, false, false⟩ := by
  unfold tick
  rw [h]
  exact if_neg hd

lemma tickFire_triggered (s : CaptchaTaskState) (now : ℚ) :
    (tickFire s now).triggered = true := rfl

lemma tickFire_last (s : CaptchaTaskState) (now : ℚ) :
    (tickFire s now).state.last_challenge = some now := by
  unfold tickFire
  exact (runAsync_last _).trans rfl

lemma tick_triggered_eq (s₁ s₂ : CaptchaTaskState) (now : ℚ)
    (hl : s₁.last_challenge = s₂.last_challenge)
    (hi : s₁.interval = s₂.interval) :
    (tick s₁ now).triggered = (tick s₂ now).triggered := by
  unfold tick
  rw [hl, hi]
  cases h : s₂.last_challenge with
  | none => simp [tickFire]
  | some last =>
    by_cases hd : now - last ≥ (s₂.interval : ℚ)
    · simp [hd, tickFire]
    · simp [hd]

lemma stopTask_last (ok : Bool) (s : CaptchaTaskState) :
    (stopTask ok s).last_challenge = s.last_challenge := by
  unfold stopTask
  rcases s with ⟨i, it, lc, r, la, tk, th⟩
  rcases tk with _ | done
  · rfl
  · rcases done with _ | _
    · rcases ok with _ | _ <;> rfl
    · rfl

lemma stopTask_interval (ok : Bool) (s : CaptchaTaskState) :
    (stopTask ok s).interval = s.interval := by
  unfold stopTask
  rcases s with ⟨i, it, lc, r, la, tk, th⟩
  rcases tk with _ | done
  · rfl
  · rcases done with _ | _
    · rcases ok with _ | _ <;> rfl
    · rfl
/-! ### Claim theorems: scheduler -/

/-- C1: `tick(now)` triggers a new challenge instance iff `_last_challenge`
is absent or `now - _last_challenge >= interval`; when it triggers it sets
`_last_challenge = now`, and when it does not trigger the whole task state
is left unchanged and no challenge instance is started. -/
theorem tick_triggers_iff (s : CaptchaTaskState) (now : ℚ) :
    ((tick s now).triggered = true ↔
      (s.last_challenge = none ∨
        ∃ last, s.last_challenge = some last ∧
          now - last ≥ (s.interval : ℚ))) ∧
    ((tick s now).triggered = true →
      (tick s now).state.last_challenge = some now) ∧
    ((tick s now).triggered = false →
      (tick s now).state = s ∧ (tick s now).started = false) := by
  cases hlc : s.last_challenge with
  | none =>
    rw [tick_eq_of_none s now hlc]
    refine ⟨by simp [tickFire_triggered], fun _ => tickFire_last s now, ?_⟩
    intro h
    rw [tickFire_triggered] at h
    exact absurd h (by simp)
  | some last =>
    by_cases hd : now - last ≥ (s.interval : ℚ)
    · rw [tick_eq_of_due s now last hlc hd]
      refine ⟨⟨fun _ => Or.inr ⟨last, rfl, hd⟩,
        fun _ => tickFire_triggered s now⟩,
        fun _ => tickFire_last s now, ?_⟩
      intro h
      rw [tickFire_triggered] at h
      exact absurd h (by simp)
    · rw [tick_eq_of_not_due s now last hlc hd]
      refine ⟨⟨fun h => absurd h (by simp), ?_⟩,
        fun h => absurd h (by simp), fun _ => ⟨rfl, rfl⟩⟩
      rintro (h | ⟨last₂, hl₂, hd₂⟩)
      · exact absurd h (by simp)
      · cases Option.some.inj hl₂
        exact absurd hd₂ hd

/-- C1 witness: with `interval = 10`, a first tick at time `0` triggers
and records `_last_challenge = 0`; a tick at time `5` on a state with
`_last_challenge = 0` does not trigger and changes nothing. -/
theorem tick_triggers_iff_witness :
    ((tick (initCaptchaTask 10 3) 0).state.last_challenge = some 0) ∧
    ((tick ⟨10, 3, some 0, false, some (), none, some true⟩ 5).state
        = ⟨10, 3, some 0, false, some (), none, some true⟩ ∧
      (tick ⟨10, 3, some 0, false, some (), none, some true⟩ 5).started
        = false) := by
  constructor
  · exact (tick_triggers_iff (initCaptchaTask 10 3) 0).2.1 rfl
  · refine (tick_triggers_iff _ 5).2.2 ?_
    rw [tick_eq_of_not_due _ 5 0 rfl (by norm_num)]

/-- C9: the behaviour of `tick` is independent of the `_running` flag: on
two states differing only in `_running` it makes the same trigger
decision, starts or suppresses identically, and performs the same state
update; in particular `tick` still triggers identically after `stop()` or
after `start()`. -/
theorem tick_independent_of_running (s : CaptchaTaskState) (b : Bool)
    (now : ℚ) :
    (tick { s with running := b } now =
      ⟨{ (tick s now).state with running := b },
        (tick s now).triggered, (tick s now).started⟩) ∧
    (∀ ok, (tick (stopTask ok s) now).triggered =
      (tick s now).triggered) ∧
    ((tick (startTask s) now).triggered = (tick s now).triggered) := by
  refine ⟨?_, fun ok => tick_triggered_eq _ _ now (stopTask_last ok s)
    (stopTask_interval ok s), tick_triggered_eq _ _ now rfl rfl⟩
  rcases s with ⟨i, it, lc, r, la, tk, th⟩
  cases lc with
  | none =>
    rcases la with _ | u
    · rfl
    · rcases tk with _ | done
      · rfl
      · rcases done with _ | _ <;> rfl
  | some last =>
    by_cases hd : now - last ≥ ((i : Int) : ℚ)
    · rw [tick_eq_of_due _ now last rfl hd, tick_eq_of_due _ now last rfl hd]
      rcases la with _ | u
      · rfl
      · rcases tk with _ | done
        · rfl
        · rcases done with _ | _ <;> rfl
    · rw [tick_eq_of_not_due _ now last rfl hd,
        tick_eq_of_not_due _ now last rfl hd]

/-- C7 counterexample: after a first tick at time `0` from a fresh task
(interval 10), the spawned worker thread handle is still alive (the first
challenge instance is still running), yet a tick at time `10` starts a
second challenge instance instead of suppressing it. -/
theorem overlap_counterexample :
    ((tick (initCaptchaTask 10 3) 0).state.captcha_thread = some true) ∧
    ((tick (tick (initCaptchaTask 10 3) 0).state 10).started = true) := by
  constructor
  · rfl
  · have h1 : (tick (initCaptchaTask 10 3) 0).state
        = ⟨10, 3, some 0, false, some (), none, some true⟩ := rfl
    rw [h1, tick_eq_of_due _ 10 0 rfl (by norm_num)]
    rfl

/-- C7 amended: a triggered tick is suppressed iff the event loop handle
is set and the tracked pending-task handle `_task` exists and is not done;
the liveness of the worker thread handle (which is what tracks the first,
thread-run challenge instance) has no influence, so a new instance can be
started while that instance is still active. -/
theorem started_iff_not_suppressed (s : CaptchaTaskState) (now : ℚ) :
    ((tick s now).started =
      ((tick s now).triggered &&
        !(s.loop_attr.isSome && s.task == some false))) ∧
    (∀ th, (tick { s with captcha_thread := th } now).started =
      (tick s now).started) := by
  constructor
  · rcases s with ⟨i, it, lc, r, la, tk, th⟩
    cases lc with
    | none =>
      rcases la with _ | u
      · rfl
      · rcases tk with _ | done
        · rfl
        · rcases done with _ | _ <;> rfl
    | some last =>
      by_cases hd : now - last ≥ ((i : Int) : ℚ)
      · rw [tick_eq_of_due _ now last rfl hd]
        rcases la with _ | u
        · rfl
        · rcases tk with _ | done
          · rfl
          · rcases done with _ | _ <;> rfl
      · rw [tick_eq_of_not_due _ now last rfl hd]
        rfl
  · intro th
    rcases s with ⟨i, it, lc, r, la, tk, th₀⟩
    cases lc with
    | none =>
      rcases la with _ | u
      · rfl
      · rcases tk with _ | done
        · rfl
        · rcases done with _ | _ <;> rfl
    | some last =>
      by_cases hd : now - last ≥ ((i : Int) : ℚ)
      · rw [tick_eq_of_due _ now last rfl hd, tick_eq_of_due _ now last rfl hd]
        rcases la with _ | u
        · rfl
        · rcases tk with _ | done
          · rfl
          · rcases done with _ | _ <;> rfl
      · rw [tick_eq_of_not_due _ now last rfl hd,
          tick_eq_of_not_due _ now last rfl hd]

/-- C8: for every task state, the serialized form produced by
`__getstate__` contains exactly the fields `interval`, `info_timeout`,
`_last_challenge`, and `_running` (with their current values), and the
loop, task, and thread handles are absent. -/
theorem getstate_exact_fields (s : CaptchaTaskState) :
    ((getstate s).map Prod.fst
      = ["interval", "info_timeout", "_last_challenge", "_running"]) ∧
    ((getstate s).lookup "interval" = some (.int s.interval)) ∧
    ((getstate s).lookup "info_timeout" = some (.int s.info_timeout)) ∧
    ((getstate s).lookup "_last_challenge"
      = some (.optFloat s.last_challenge)) ∧
    ((getstate s).lookup "_running" = some (.bool s.running)) ∧
    ((getstate s).lookup "_loop_attr" = none) ∧
    ((getstate s).lookup "_task" = none) ∧
    ((getstate s).lookup "_captcha_thread" = none) :=
  ⟨rfl, rfl, rfl, rfl, rfl, rfl, rfl, rfl⟩

/-! ### Coroutine lemmas -/

lemma coroutine_spawnFailed (username : String) (info_timeout : Int)
    (ia ib : Fin 20) (iop : Fin 2) (t1 t2 : Int) :
    captchaChallengeCoroutine username info_timeout ia ib iop t1 t2
      .spawnFailed = ⟨[], []⟩ := rfl

lemma coroutine_cancelled (username : String) (info_timeout : Int)
    (ia ib : Fin 20) (iop : Fin 2) (t1 t2 : Int) :
    captchaChallengeCoroutine username info_timeout ia ib iop t1 t2
        .cancelled
      = ⟨[], [.mathPrompt
          (promptText (generateChallenge ia ib iop).expr)]⟩ := rfl

lemma coroutine_submitted_invalid (username : String) (info_timeout : Int)
    (ia ib : Fin 20) (iop : Fin 2) (t1 t2 : Int) (raw : String)
    (h : parseUserAnswer? raw = none) :
    captchaChallengeCoroutine username info_timeout ia ib iop t1 t2
        (.submitted raw)
      = ⟨[], [.mathPrompt (promptText (generateChallenge ia ib iop).expr),
          .invalidInput]⟩ := by
  simp only [captchaChallengeCoroutine, showMathDialogAsync, h]

lemma coroutine_submitted_parsed (username : String) (info_timeout : Int)
    (ia ib : Fin 20) (iop : Fin 2) (t1 t2 : Int) (raw : String) (n : Int)
    (h : parseUserAnswer? raw = some n) :
    captchaChallengeCoroutine username info_timeout ia ib iop t1 t2
        (.submitted raw)
      = ⟨[logCaptchaEvent username (generateChallenge ia ib iop).expr n
            (generateChallenge ia ib iop).correct_answer
            (n == (generateChallenge ia ib iop).correct_answer)
            t1 t2 (responseTimeMs t1 t2)],
         [.mathPrompt (promptText (generateChallenge ia ib iop).expr),
          if n == (generateChallenge ia ib iop).correct_answer
            then .successInfo info_timeout else .errorWarning]⟩ := by
  simp only [captchaChallengeCoroutine, showMathDialogAsync, h]
  rfl

lemma logEvent_lookup_username (u e : String) (ua ca : Int) (ic : Bool)
    (ct an rt : Int) :
    (logCaptchaEvent u e ua ca ic ct an rt).lookup "username"
      = some (.str u) := rfl

lemma logEvent_lookup_timestamp (u e : String) (ua ca : Int) (ic : Bool)
    (ct an rt : Int) :
    (logCaptchaEvent u e ua ca ic ct an rt).lookup "timestamp"
      = some (.dt ct) := rfl

lemma logEvent_lookup_event (u e : String) (ua ca : Int) (ic : Bool)
    (ct an rt : Int) :
    (logCaptchaEvent u e ua ca ic ct an rt).lookup "event"
      = some (.str "captcha_challenge") := rfl

lemma logEvent_lookup_expression (u e : String) (ua ca : Int) (ic : Bool)
    (ct an rt : Int) :
    (logCaptchaEvent u e ua ca ic ct an rt).lookup "expression"
      = some (.str e) := rfl

lemma logEvent_lookup_user_answer (u e : String) (ua ca : Int) (ic : Bool)
    (ct an rt : Int) :
    (logCaptchaEvent u e ua ca ic ct an rt).lookup "user_answer"
      = some (.int ua) := rfl

lemma logEvent_lookup_correct_answer (u e : String) (ua ca : Int)
    (ic : Bool) (ct an rt : Int) :
    (logCaptchaEvent u e ua ca ic ct an rt).lookup "correct_answer"
      = some (.int ca) := rfl

lemma logEvent_lookup_is_correct (u e : String) (ua ca : Int) (ic : Bool)
    (ct an rt : Int) :
    (logCaptchaEvent u e ua ca ic ct an rt).lookup "is_correct"
      = some (.bool ic) := rfl

lemma logEvent_lookup_creation_time (u e : String) (ua ca : Int)
    (ic : Bool) (ct an rt : Int) :
    (logCaptchaEvent u e ua ca ic ct an rt).lookup "creation_time"
      = some (.dt ct) := rfl

lemma logEvent_lookup_answer_time (u e : String) (ua ca : Int) (ic : Bool)
    (ct an rt : Int) :
    (logCaptchaEvent u e ua ca ic ct an rt).lookup "answer_time"
      = some (.dt an) := rfl

lemma logEvent_lookup_response_time (u e : String) (ua ca : Int)
    (ic : Bool) (ct an rt : Int) :
    (logCaptchaEvent u e ua ca ic ct an rt).lookup "response_time_ms"
      = some (.int rt) := rfl

lemma pyInt_totalSeconds_mul1000 (d : Int) (h : 0 ≤ d) :
    pyInt (timedeltaTotalSeconds d * 1000)
      = ((d.toNat / 1000 : Nat) : Int) := by
  unfold timedeltaTotalSeconds pyInt
  have h1 : (d : ℚ) / 1000000 * 1000 = (d : ℚ) / ((1000 : Nat) : ℚ) := by
    push_cast
    ring
  rw [h1]
  have hq : (0 : ℚ) ≤ (d : ℚ) / ((1000 : Nat) : ℚ) := by
    apply div_nonneg
    · exact_mod_cast h
    · norm_num
  rw [Int.tdiv_eq_ediv (Rat.num_nonneg.mpr hq) (by positivity)]
  rw [← Rat.floor_def]
  rw [Rat.floor_intCast_div_natCast]
  omega

lemma responseTimeMs_eq_floor (t1 t2 : Int) (h : t1 ≤ t2) :
    responseTimeMs t1 t2 = (((t2 - t1).toNat / 1000 : Nat) : Int) := by
  unfold responseTimeMs
  exact pyInt_totalSeconds_mul1000 (t2 - t1) (by omega)

/-! ### Claim theorems: challenge runs -/

/-- C2: when the dialog collaborator signals cancellation, no record is
pushed to the EventStore and no dialog beyond the math prompt itself is
shown; moreover a record is only ever pushed when the dialog outcome is a
submitted value that parses as an integer. -/
theorem cancellation_no_event (username : String) (info_timeout : Int)
    (ia ib : Fin 20) (iop : Fin 2) (t1 t2 : Int) :
    ((captchaChallengeCoroutine username info_timeout ia ib iop t1 t2
        .cancelled).pushes = []) ∧
    ((captchaChallengeCoroutine username info_timeout ia ib iop t1 t2
        .cancelled).dialogs
      = [.mathPrompt (promptText (generateChallenge ia ib iop).expr)]) ∧
    (∀ res, (captchaChallengeCoroutine username info_timeout ia ib iop
        t1 t2 res).pushes ≠ [] →
      ∃ raw n, res = .submitted raw ∧ parseUserAnswer? raw = some n) := by
  refine ⟨by rw [coroutine_cancelled], by rw [coroutine_cancelled], ?_⟩
  intro res hne
  cases res with
  | spawnFailed => exact absurd rfl hne
  | cancelled => exact absurd rfl hne
  | submitted raw =>
    cases hp : parseUserAnswer? raw with
    | none =>
      refine absurd ?_ hne
      rw [coroutine_submitted_invalid username info_timeout ia ib iop
        t1 t2 raw hp]
    | some n => exact ⟨raw, n, rfl, hp⟩

/-- C2 witness: submitting the text `"5"` makes the run push a record, and
the only-if direction then exhibits the submitted value. -/
theorem cancellation_no_event_witness :
    ∃ raw n, DialogResult.submitted "5" = DialogResult.submitted raw ∧
      parseUserAnswer? raw = some n := by
  refine (cancellation_no_event "alice" 3 0 0 0 0 1000000).2.2
    (.submitted "5") ?_
  rw [coroutine_submitted_parsed "alice" 3 0 0 0 0 1000000 "5" 5 rfl]
  simp

/-- C5: when the dialog collaborator returns text that fails to parse as
an integer, the run pushes no record and shows exactly the math prompt
followed by one invalid-input dialog — no success or warning dialog. -/
theorem invalid_input_no_event (username : String) (info_timeout : Int)
    (ia ib : Fin 20) (iop : Fin 2) (t1 t2 : Int) (raw : String)
    (h : parseUserAnswer? raw = none) :
    ((captchaChallengeCoroutine username info_timeout ia ib iop t1 t2
        (.submitted raw)).pushes = []) ∧
    ((captchaChallengeCoroutine username info_timeout ia ib iop t1 t2
        (.submitted raw)).dialogs
      = [.mathPrompt (promptText (generateChallenge ia ib iop).expr),
         .invalidInput]) := by
  rw [coroutine_submitted_invalid username info_timeout ia ib iop
    t1 t2 raw h]
  exact ⟨rfl, rfl⟩

/-- C5 witness: the text `"abc"` does not parse as an integer, and the run
on it pushes nothing and shows the prompt and one invalid-input dialog. -/
theorem invalid_input_no_event_witness :
    (parseUserAnswer? "abc" = none) ∧
    ((captchaChallengeCoroutine "alice" 3 0 0 0 0 1000000
        (.submitted "abc")).pushes = []) ∧
    ((captchaChallengeCoroutine "alice" 3 0 0 0 0 1000000
        (.submitted "abc")).dialogs
      = [.mathPrompt (promptText (generateChallenge 0 0 0).expr),
         .invalidInput]) :=
  ⟨rfl, invalid_input_no_event "alice" 3 0 0 0 0 1000000 "abc" rfl⟩

/-- C4: on every record pushed by a challenge run whose two clock readings
are in order, the `response_time_ms` field equals the difference
`answer_time - creation_time` truncated to whole milliseconds, and that
value is nonnegative. -/
theorem response_time_exact (username : String) (info_timeout : Int)
    (ia ib : Fin 20) (iop : Fin 2) (t1 t2 : Int) (res : DialogResult)
    (hmono : t1 ≤ t2) :
    ∀ rec ∈ (captchaChallengeCoroutine username info_timeout ia ib iop
        t1 t2 res).pushes,
      rec.lookup "response_time_ms"
          = some (.int (((t2 - t1).toNat / 1000 : Nat) : Int)) ∧
        (0 : Int) ≤ (((t2 - t1).toNat / 1000 : Nat) : Int) := by
  intro rec hrec
  cases res with
  | spawnFailed =>
    rw [coroutine_spawnFailed] at hrec
    exact absurd hrec (by simp)
  | cancelled =>
    rw [coroutine_cancelled] at hrec
    simp at hrec
  | submitted raw =>
    cases hp : parseUserAnswer? raw with
    | none =>
      rw [coroutine_submitted_invalid username info_timeout ia ib iop
        t1 t2 raw hp] at hrec
      simp at hrec
    | some n =>
      rw [coroutine_submitted_parsed username info_timeout ia ib iop
        t1 t2 raw n hp] at hrec
      rw [show ((⟨[logCaptchaEvent username
            (generateChallenge ia ib iop).expr n
            (generateChallenge ia ib iop).correct_answer
            (n == (generateChallenge ia ib iop).correct_answer)
            t1 t2 (responseTimeMs t1 t2)], _⟩ : RunOutcome).pushes)
        = [logCaptchaEvent username (generateChallenge ia ib iop).expr n
            (generateChallenge ia ib iop).correct_answer
            (n == (generateChallenge ia ib iop).correct_answer)
            t1 t2 (responseTimeMs t1 t2)] from rfl] at hrec
      rw [List.mem_singleton] at hrec
      subst hrec
      refine ⟨?_, Int.ofNat_nonneg _⟩
      rw [logEvent_lookup_response_time,
        responseTimeMs_eq_floor t1 t2 hmono]

/-- C4 witness: with clock readings 0 and 1234567 microseconds and a
submitted answer `"5"`, the pushed record carries
`response_time_ms = 1234`. -/
theorem response_time_exact_witness :
    ((0 : Int) ≤ 1234567) ∧
    ((logCaptchaEvent "alice" (generateChallenge 0 0 0).expr 5
        (generateChallenge 0 0 0).correct_answer
        ((5 : Int) == (generateChallenge 0 0 0).correct_answer)
        0 1234567 (responseTimeMs 0 1234567)).lookup "response_time_ms"
        = some (.int ((((1234567 : Int) - 0).toNat / 1000 : Nat) : Int)) ∧
      (0 : Int) ≤ ((((1234567 : Int) - 0).toNat / 1000 : Nat) : Int)) := by
  refine ⟨by norm_num, response_time_exact "alice" 3 0 0 0 0 1234567
    (.submitted "5") (by norm_num) _ ?_⟩
  rw [coroutine_submitted_parsed "alice" 3 0 0 0 0 1234567 "5" 5 rfl]
  exact List.mem_singleton.mpr rfl

/-- C6: every record pushed by a challenge run contains the configured
user identity, a `timestamp` equal to the creation time, the fixed tag
`"captcha_challenge"` as event type, and all ChallengeEvent fields:
expression, user answer, correct answer, correctness flag, creation and
answer times, and response time. -/
theorem emitted_record_fields (username : String) (info_timeout : Int)
    (ia ib : Fin 20) (iop : Fin 2) (t1 t2 : Int) (res : DialogResult) :
    ∀ rec ∈ (captchaChallengeCoroutine username info_timeout ia ib iop
        t1 t2 res).pushes,
      rec.lookup "username" = some (.str username) ∧
      rec.lookup "timestamp" = some (.dt t1) ∧
      rec.lookup "event" = some (.str "captcha_challenge") ∧
      rec.lookup "expression"
        = some (.str (generateChallenge ia ib iop).expr) ∧
      (∃ n, rec.lookup "user_answer" = some (.int n) ∧
        rec.lookup "is_correct" = some (.bool
          (n == (generateChallenge ia ib iop).correct_answer))) ∧
      rec.lookup "correct_answer"
        = some (.int (generateChallenge ia ib iop).correct_answer) ∧
      rec.lookup "creation_time" = some (.dt t1) ∧
      rec.lookup "answer_time" = some (.dt t2) ∧
      rec.lookup "response_time_ms"
        = some (.int (responseTimeMs t1 t2)) := by
  intro rec hrec
  cases res with
  | spawnFailed =>
    rw [coroutine_spawnFailed] at hrec
    exact absurd hrec (by simp)
  | cancelled =>
    rw [coroutine_cancelled] at hrec
    simp at hrec
  | submitted raw =>
    cases hp : parseUserAnswer? raw with
    | none =>
      rw [coroutine_submitted_invalid username info_timeout ia ib iop
        t1 t2 raw hp] at hrec
      simp at hrec
    | some n =>
      rw [coroutine_submitted_parsed username info_timeout ia ib iop
        t1 t2 raw n hp] at hrec
      rw [show ((⟨[logCaptchaEvent username
            (generateChallenge ia ib iop).expr n
            (generateChallenge ia ib iop).correct_answer
            (n == (generateChallenge ia ib iop).correct_answer)
            t1 t2 (responseTimeMs t1 t2)], _⟩ : RunOutcome).pushes)
        = [logCaptchaEvent username (generateChallenge ia ib iop).expr n
            (generateChallenge ia ib iop).correct_answer
            (n == (generateChallenge ia ib iop).correct_answer)
            t1 t2 (responseTimeMs t1 t2)] from rfl] at hrec
      rw [List.mem_singleton] at hrec
      subst hrec
      exact ⟨logEvent_lookup_username _ _ _ _ _ _ _ _,
        logEvent_lookup_timestamp _ _ _ _ _ _ _ _,
        logEvent_lookup_event _ _ _ _ _ _ _ _,
        logEvent_lookup_expression _ _ _ _ _ _ _ _,
        ⟨n, logEvent_lookup_user_answer _ _ _ _ _ _ _ _,
          logEvent_lookup_is_correct _ _ _ _ _ _ _ _⟩,
        logEvent_lookup_correct_answer _ _ _ _ _ _ _ _,
        logEvent_lookup_creation_time _ _ _ _ _ _ _ _,
        logEvent_lookup_answer_time _ _ _ _ _ _ _ _,
        logEvent_lookup_response_time _ _ _ _ _ _ _ _⟩

/-- C6 witness: the record pushed for a submitted answer `"5"` on the
challenge generated from seeds `(0, 0, 0)` has all the required fields. -/
theorem emitted_record_fields_witness :
    ((logCaptchaEvent "alice" (generateChallenge 0 0 0).expr 5
        (generateChallenge 0 0 0).correct_answer
        ((5 : Int) == (generateChallenge 0 0 0).correct_answer)
        0 1000000 (responseTimeMs 0 1000000)).lookup "username"
      = some (.str "alice")) ∧
    ((logCaptchaEvent "alice" (generateChallenge 0 0 0).expr 5
        (generateChallenge 0 0 0).correct_answer
        ((5 : Int) == (generateChallenge 0 0 0).correct_answer)
        0 1000000 (responseTimeMs 0 1000000)).lookup "event"
      = some (.str "captcha_challenge")) := by
  have h := emitted_record_fields "alice" 3 0 0 0 0 1000000
    (.submitted "5") (logCaptchaEvent "alice"
      (generateChallenge 0 0 0).expr 5
      (generateChallenge 0 0 0).correct_answer
      ((5 : Int) == (generateChallenge 0 0 0).correct_answer)
      0 1000000 (responseTimeMs 0 1000000)) (by
        rw [coroutine_submitted_parsed "alice" 3 0 0 0 0 1000000 "5" 5 rfl]
        exact List.mem_singleton.mpr rfl)
  exact ⟨h.1, h.2.2.1⟩

/-- C10: every generated challenge has its correct answer in the range
[-19, 40], and a subtraction challenge can produce a negative correct
answer that is carried into an emitted record. -/
theorem correct_answer_range :
    (∀ ia ib : Fin 20, ∀ iop : Fin 2,
      -19 ≤ (generateChallenge ia ib iop).correct_answer ∧
        (generateChallenge ia ib iop).correct_answer ≤ 40) ∧
    (∃ rec ∈ (captchaChallengeCoroutine "alice" 3 0 19 1 0 0
        (.submitted "5")).pushes,
      rec.lookup "correct_answer" = some (.int (-19)) ∧
        (-19 : Int) < 0) := by
  constructor
  · intro ia ib iop
    have hia := ia.isLt
    have hib := ib.isLt
    by_cases h : iop.val = 0 <;>
      simp [generateChallenge, randint1to20, pyChoiceOp, evalOp, h] <;>
      omega
  · refine ⟨logCaptchaEvent "alice" (generateChallenge 0 19 1).expr 5
      (generateChallenge 0 19 1).correct_answer
      ((5 : Int) == (generateChallenge 0 19 1).correct_answer)
      0 0 (responseTimeMs 0 0), ?_, ?_, by norm_num⟩
    · rw [coroutine_submitted_parsed "alice" 3 0 19 1 0 0 "5" 5 rfl]
      exact List.mem_singleton.mpr rfl
    · rw [logEvent_lookup_correct_answer]
      decide

lemma generateChallenge_injective :
    Function.Injective generateChallengeFun := by
  rintro ⟨ia, ib, iop⟩ ⟨ja, jb, jop⟩ h
  have ha : randint1to20 ia = randint1to20 ja := congrArg Challenge.a h
  have hb : randint1to20 ib = randint1to20 jb := congrArg Challenge.b h
  have hop : pyChoiceOp iop = pyChoiceOp jop := congrArg Challenge.op h
  have hia : ia = ja := by
    unfold randint1to20 at ha
    exact Fin.ext (by omega)
  have hib : ib = jb := by
    unfold randint1to20 at hb
    exact Fin.ext (by omega)
  have hiop : iop = jop := by
    fin_cases iop <;> fin_cases jop <;>
      first
        | rfl
        | exact absurd hop (by decide)
  subst hia
  subst hib
  subst hiop
  rfl

set_option maxRecDepth 10000 in
/-- C3: every generated challenge has both operands in [1, 20], an
operator among addition and subtraction, and a correct answer equal to the
exact arithmetic evaluation of its expression string; the seeded generator
is injective on the uniform sample space, so the generated triples are
themselves uniformly distributed. -/
theorem generator_uniform_and_exact :
    (∀ ia ib : Fin 20, ∀ iop : Fin 2,
      1 ≤ (generateChallenge ia ib iop).a ∧
      (generateChallenge ia ib iop).a ≤ 20 ∧
      1 ≤ (generateChallenge ia ib iop).b ∧
      (generateChallenge ia ib iop).b ≤ 20 ∧
      ((generateChallenge ia ib iop).op = Op.add ∨
        (generateChallenge ia ib iop).op = Op.sub) ∧
      pyEval (generateChallenge ia ib iop).expr
        = some (generateChallenge ia ib iop).correct_answer) ∧
    ((Finset.univ.image generateChallengeFun).card
      = Fintype.card (Fin 20 × Fin 20 × Fin 2)) := by
  constructor
  · decide
  · rw [Finset.card_image_of_injective _ generateChallenge_injective,
      Finset.card_univ]

end DevPulse
